import Mathlib

/-!
Verification of the capture orchestration and display state machine of the
pi-nbw-cam kiosk server.  The definitions below are a shallow embedding of
the JavaScript sources: the quota store (state.json handling), the capture
orchestration sequence (runCaptureWithUI and its button / HTTP callers),
the OLED idle "twinkle" animation, and the image-saving pipeline.
Time is modelled in milliseconds relative to the moment a request is
accepted; asynchronous interleavings are modelled by explicit timestamps
on emitted events.
-/

namespace PiCam

/-! ## Quota store (state.json) -/

def DAILY_LIMIT : Int := 10

structure QuotaState where
  date : String
  shotsRemaining : Int
deriving DecidableEq, Repr

/-- The persisted state.json file: absent, unparsable / schema-invalid, or a
record with a date string and a numeric shotsRemaining. -/
inductive StateFile where
  | absent : StateFile
  | invalid : StateFile
  | record : String → Int → StateFile
deriving DecidableEq, Repr

def defaultState (today : String) : QuotaState :=
  { date := today, shotsRemaining := DAILY_LIMIT }

/-- writeState: serialize the record (write-temp-then-rename). -/
def writeState (s : QuotaState) : StateFile :=
  StateFile.record s.date s.shotsRemaining

/-- readState: parse state.json; a schema-valid record is returned as-is,
anything else is replaced by a freshly persisted default for today. -/
def readState (today : String) (f : StateFile) : QuotaState × StateFile :=
  match f with
  | StateFile.record d n => ({ date := d, shotsRemaining := n }, f)
  | _ =>
    let s := defaultState today
    (s, writeState s)

/-- ensureToday: roll the record forward to today, resetting the quota and
persisting, exactly when the stored date differs from today. -/
def ensureToday (today : String) (s : QuotaState) (f : StateFile) :
    QuotaState × StateFile :=
  if s.date ≠ today then
    let s2 : QuotaState := { date := today, shotsRemaining := DAILY_LIMIT }
    (s2, writeState s2)
  else
    (s, f)

/-- canCapture: ensureToday, then test shotsRemaining > 0. -/
def canCapture (today : String) (s : QuotaState) (f : StateFile) :
    Bool × QuotaState × StateFile :=
  let r := ensureToday today s f
  (decide (r.1.shotsRemaining > 0), r.1, r.2)

/-- decAndPersist: shotsRemaining = max(0, shotsRemaining - 1), persisted. -/
def decAndPersist (s : QuotaState) : QuotaState × StateFile :=
  let s2 : QuotaState := { date := s.date, shotsRemaining := max 0 (s.shotsRemaining - 1) }
  (s2, writeState s2)

/-- The quota invariant claimed by the spec. -/
def quotaInv (today : String) (s : QuotaState) : Prop :=
  0 ≤ s.shotsRemaining ∧ s.shotsRemaining ≤ DAILY_LIMIT ∧ s.date = today

/-! ## Capture orchestration (runCaptureWithUI and its callers)

Timing constants from the source: a 3-step countdown at one render per
second, a 30000 ms race timeout created when the orchestrator starts
waiting (after the countdown and the Processing render), an 800 ms settle
delay after the success result, and a 1500 ms revert delay after failure
or limit messages. -/

def COUNTDOWN_SECONDS : Nat := 3

def COUNTDOWN_MS : Nat := 1000 * COUNTDOWN_SECONDS

def RACE_TIMEOUT_MS : Nat := 30000

def SETTLE_MS : Nat := 800

def REVERT_MS : Nat := 1500

/-- The instant (ms after acceptance) at which the safety-timeout promise
rejects: it is created once the countdown and the Processing render are
done, 30000 ms before it fires. -/
def raceDeadline : Nat := COUNTDOWN_MS + RACE_TIMEOUT_MS

/-- Observable actions of the orchestrator, as rendered / broadcast /
mutated during one request. -/
inductive Ev where
  | startCapture : Ev
  | renderCountdown : Nat → Ev
  | renderProcessing : Ev
  | renderResult : Bool → Ev
  | renderStatus : String → Ev
  | renderRemaining : Int → Ev
  | setBusy : Bool → Ev
  | decQuota : Ev
  | notifyCaptured : Option String → Ev
deriving DecidableEq, Repr

/-- Behaviour of one external capture attempt: whether the underlying
captureImage call succeeds, the filename it would produce, the error
message it would fail with, and the time (ms after the request was
accepted) at which it settles. -/
structure CapBehavior where
  ok : Bool
  filename : String
  errMsg : String
  latency : Nat
deriving DecidableEq, Repr

/-- The self-catching capture promise: captureImage is launched with a
catch handler that records a failure in capError and resolves with null,
so the promise always settles as a resolution (some filename on success,
none on failure) and never as an escaping rejection. -/
def capPromiseOutcome (cap : CapBehavior) : Except String (Option String) :=
  Except.ok (if cap.ok then some cap.filename else none)

/-- The countdown renders n = 3, 2, 1 at a one-second cadence starting at
the moment the request is accepted. -/
def countdownTrace : List (Nat × Ev) :=
  (List.range COUNTDOWN_SECONDS).map
    (fun i => (1000 * i, Ev.renderCountdown (COUNTDOWN_SECONDS - i)))

structure RunOutcome where
  trace : List (Nat × Ev)
  result : Except String String
  endTime : Nat
  state : QuotaState
  file : StateFile
deriving Repr

/-- runCaptureWithUI: start the capture immediately (self-catching), run
the countdown, render Processing, then race the capture promise against
the 30 s timeout.  On success: render Result(true), clear busy, decrement
the quota, broadcast the captured notification, and 800 ms later re-render
the remaining count from a fresh read.  On recorded capture error: render
Result(false) and rethrow the stored error.  On timeout: rethrow the
timeout error without rendering. -/
def runCaptureWithUI (today : String) (cap : CapBehavior) (s : QuotaState)
    (f : StateFile) : RunOutcome :=
  let pre : List (Nat × Ev) :=
    (0, Ev.startCapture) :: (countdownTrace ++ [(COUNTDOWN_MS, Ev.renderProcessing)])
  if cap.latency ≤ raceDeadline then
    match capPromiseOutcome cap with
    | Except.error e =>
      -- a rejected capture promise would propagate out of the race;
      -- unreachable because the promise self-catches
      { trace := pre, result := Except.error e,
        endTime := max COUNTDOWN_MS cap.latency, state := s, file := f }
    | Except.ok none =>
      -- capError was recorded: render the failure and rethrow it
      let t := max COUNTDOWN_MS cap.latency
      { trace := pre ++ [(t, Ev.renderResult false)],
        result := Except.error cap.errMsg, endTime := t, state := s, file := f }
    | Except.ok (some filename) =>
      let t := max COUNTDOWN_MS cap.latency
      let d := decAndPersist s
      let fresh := readState today d.2
      let fresh2 := ensureToday today fresh.1 fresh.2
      { trace := pre ++
          [(t, Ev.renderResult true), (t, Ev.setBusy false), (t, Ev.decQuota),
           (t, Ev.notifyCaptured (some filename)),
           (t + SETTLE_MS, Ev.renderRemaining fresh2.1.shotsRemaining)],
        result := Except.ok filename, endTime := t, state := d.1, file := fresh2.2 }
  else
    { trace := pre, result := Except.error "Capture timeout after 30 seconds",
      endTime := raceDeadline, state := s, file := f }

/-- The readState / ensureToday / canCapture chain both handlers run before
accepting a request. -/
def loadChain (today : String) (f : StateFile) : Bool × QuotaState × StateFile :=
  let r1 := readState today f
  let r2 := ensureToday today r1.1 r1.2
  canCapture today r2.1 r2.2

def quotaAvailable (today : String) (f : StateFile) : Bool :=
  (loadChain today f).1

def loadedToday (today : String) (f : StateFile) : QuotaState :=
  (loadChain today f).2.1

structure HttpResponse where
  status : Nat
  ok : Bool
  error : Option String
  url : Option String
  saved : Option String
deriving DecidableEq, Repr

structure World where
  busy : Bool
  file : StateFile
deriving DecidableEq, Repr

structure PostOutcome where
  response : HttpResponse
  trace : List (Nat × Ev)
  world : World
  invokedCapturer : Bool
deriving Repr

/-! ## encodeURIComponent (used for the saved gallery URL) -/

def isUnreservedChar (c : Char) : Bool :=
  c.isAlphanum ||
    c ∈ ([Char.ofNat 45, Char.ofNat 95, Char.ofNat 46, Char.ofNat 33,
          Char.ofNat 126, Char.ofNat 42, Char.ofNat 39, Char.ofNat 40,
          Char.ofNat 41] : List Char)

def hexDigitChar (n : Nat) : Char :=
  if n < 10 then Char.ofNat (48 + n) else Char.ofNat (55 + n)

def percentEncodeByte (b : Nat) : String :=
  String.mk [Char.ofNat 37, hexDigitChar (b / 16 % 16), hexDigitChar (b % 16)]

def utf8Bytes (c : Char) : List Nat :=
  let n := c.toNat
  if n < 128 then [n]
  else if n < 2048 then [192 + n / 64, 128 + n % 64]
  else if n < 65536 then [224 + n / 4096, 128 + n / 64 % 64, 128 + n % 64]
  else [240 + n / 262144, 128 + n / 4096 % 64, 128 + n / 64 % 64, 128 + n % 64]

def encodeChars : List Char → String
  | [] => ""
  | c :: cs =>
    (if isUnreservedChar c then String.mk [c]
     else String.join ((utf8Bytes c).map percentEncodeByte)) ++ encodeChars cs

def encodeURIComponent (s : String) : String := encodeChars s.toList

/-- An {ok:false, error} JSON error response. -/
def errorResponse (status : Nat) (msg : String) : HttpResponse :=
  { status := status, ok := false, error := some msg, url := none, saved := none }

/-- The 200 {ok:true, url, saved} success response. -/
def successResponse (ts : Nat) (filename : String) : HttpResponse :=
  { status := 200, ok := true, error := none,
    url := some ("/latest.webp?ts=" ++ toString ts),
    saved := some ("/images/" ++ encodeURIComponent filename) }

/-- The POST /capture handler: 409 while busy (without touching anything),
403 when the quota is exhausted (without invoking the capturer), otherwise
set busy, run the capture sequence, and answer 200 or 500; the finally
block clears busy. -/
def capturePost (today : String) (ts : Nat) (cap : CapBehavior) (w : World) :
    PostOutcome :=
  if w.busy then
    { response := errorResponse 409 "Busy",
      trace := [], world := w, invokedCapturer := false }
  else
    let c := loadChain today w.file
    if c.1 = false then
      { response := errorResponse 403 "Daily limit reached",
        trace := [(0, Ev.renderStatus "Limit reached"),
                  (REVERT_MS, Ev.renderRemaining c.2.1.shotsRemaining)],
        world := { busy := w.busy, file := c.2.2 }, invokedCapturer := false }
    else
      let run := runCaptureWithUI today cap c.2.1 c.2.2
      match run.result with
      | Except.ok filename =>
        { response := successResponse ts filename,
          trace := (0, Ev.setBusy true) :: (run.trace ++ [(run.endTime, Ev.setBusy false)]),
          world := { busy := false, file := run.file }, invokedCapturer := true }
      | Except.error _ =>
        let fresh := readState today run.file
        { response := errorResponse 500 "Capture failed",
          trace := (0, Ev.setBusy true) :: (run.trace ++
            [(run.endTime, Ev.renderResult false), (run.endTime, Ev.setBusy false),
             (run.endTime + REVERT_MS, Ev.renderRemaining fresh.1.shotsRemaining)]),
          world := { busy := false, file := fresh.2 }, invokedCapturer := true }

structure ButtonOutcome where
  trace : List (Nat × Ev)
  world : World
  invokedCapturer : Bool
deriving Repr

/-- The GPIO button alert handler: only a falling edge (level 0) counts;
while busy it renders a Busy status and returns; with the quota exhausted
it renders the limit message and the delayed remaining count; otherwise it
sets busy and runs the capture sequence, clearing busy in its catch block
on failure (on success runCaptureWithUI itself already cleared it). -/
def buttonAlert (today : String) (level : Nat) (cap : CapBehavior) (w : World) :
    ButtonOutcome :=
  if level ≠ 0 then
    { trace := [], world := w, invokedCapturer := false }
  else if w.busy then
    { trace := [(0, Ev.renderStatus "Busy…")], world := w, invokedCapturer := false }
  else
    let c := loadChain today w.file
    if c.1 = false then
      { trace := [(0, Ev.renderStatus "Limit reached"),
                  (REVERT_MS, Ev.renderRemaining c.2.1.shotsRemaining)],
        world := { busy := w.busy, file := c.2.2 }, invokedCapturer := false }
    else
      let run := runCaptureWithUI today cap c.2.1 c.2.2
      match run.result with
      | Except.ok _ =>
        { trace := (0, Ev.setBusy true) :: run.trace,
          world := { busy := false, file := run.file }, invokedCapturer := true }
      | Except.error _ =>
        let fresh := readState today run.file
        { trace := (0, Ev.setBusy true) :: (run.trace ++
            [(run.endTime, Ev.renderResult false), (run.endTime, Ev.setBusy false),
             (run.endTime + REVERT_MS, Ev.renderRemaining fresh.1.shotsRemaining)]),
          world := { busy := false, file := fresh.2 }, invokedCapturer := true }

/-! ## Idle twinkle animation and OLED presenter (server.js OLED variant) -/

structure Box where
  x0 : Nat
  y0 : Nat
  x1 : Nat
  y1 : Nat
deriving DecidableEq, Repr

/-- The two safe animation boxes: top-right 24x16 and bottom-left 28x16
(chosen to avoid the big-number area). -/
def BOXES : List Box :=
  [{ x0 := 104, y0 := 0, x1 := 127, y1 := 15 },
   { x0 := 0, y0 := 48, x1 := 27, y1 := 63 }]

def STAR_COUNT : Nat := 10

structure Star where
  x : Nat
  y : Nat
  lit : Bool
deriving DecidableEq, Repr

/-- randInt(min, max) = floor(random() * (max - min + 1)) + min; the random
draw is modelled by an arbitrary natural seed r, reduced modulo the range
size. -/
def randInt (r lo hi : Nat) : Nat := lo + r % (hi - lo + 1)

def randomPointInBox (b : Box) (r1 r2 : Nat) : Nat × Nat :=
  (randInt r1 b.x0 b.x1, randInt r2 b.y0 b.y1)

/-- BOXES[i % BOXES.length]; the index is always in range, the default is
never used. -/
def boxFor (i : Nat) : Box :=
  BOXES.getD (i % BOXES.length) { x0 := 104, y0 := 0, x1 := 127, y1 := 15 }

/-- seedStars: STAR_COUNT fresh stars, the i-th placed at a random point of
BOXES[i % BOXES.length], each initially visible with probability 1/2. -/
def seedStars (rng : Nat → Nat × Nat) (flip : Nat → Bool) : List Star :=
  (List.range STAR_COUNT).map (fun i =>
    { x := (randomPointInBox (boxFor i) (rng i).1 (rng i).2).1,
      y := (randomPointInBox (boxFor i) (rng i).1 (rng i).2).2,
      lit := flip i })

/-- The per-tick 50% visibility toggle of each star (positions unchanged). -/
def toggleStars (flip : Nat → Bool) : Nat → List Star → List Star
  | _, [] => []
  | i, s :: rest =>
    (if flip i then { s with lit := !s.lit } else s) :: toggleStars flip (i + 1) rest

/-- Relocation of one star: idx = randInt(0, stars.length - 1), a fresh
random point inside BOXES[idx % BOXES.length], made visible. -/
def moveOneStar (stars : List Star) (ridx r1 r2 : Nat) : List Star :=
  let idx := randInt ridx 0 (stars.length - 1)
  stars.set idx
    { x := (randomPointInBox (boxFor idx) r1 r2).1,
      y := (randomPointInBox (boxFor idx) r1 r2).2, lit := true }

/-- The periodic relocation loop (about 20% of the stars every few
seconds); rs carries one random triple per executed iteration. -/
def moveStars : List (Nat × Nat × Nat) → List Star → List Star
  | [], stars => stars
  | r :: rest, stars => moveStars rest (moveOneStar stars r.1 r.2.1 r.2.2)

def inBox (b : Box) (x y : Nat) : Bool :=
  decide (b.x0 ≤ x) && decide (x ≤ b.x1) && decide (b.y0 ≤ y) && decide (y ≤ b.y1)

/-- A point lies inside one of the designated safe regions. -/
def inSafeRegion (x y : Nat) : Bool := BOXES.any (fun b => inBox b x y)

/-- Low-level OLED drawing commands issued by the presenter. -/
inductive OledOp where
  | pixelOff : Nat → Nat → OledOp
  | pixelOn : Nat → Nat → OledOp
  | clearAll : OledOp
  | writeText : Nat → Nat → Nat → String → OledOp
deriving DecidableEq, Repr

def isDrawOp : OledOp → Bool
  | OledOp.pixelOff _ _ => false
  | _ => true

/-- stopTwinkle: disable the tick timer and draw every star pixel off. -/
def stopTwinkleOps (stars : List Star) : List OledOp :=
  stars.map (fun s => OledOp.pixelOff s.x s.y)

def charWidth (size : Nat) : Nat := 5 * size + 1

def charHeight (size : Nat) : Nat := 7 * size

/-- showStatus: stopTwinkle, clear, status text at the origin. -/
def showStatusOps (stars : List Star) (text : String) : List OledOp :=
  stopTwinkleOps stars ++ [OledOp.clearAll, OledOp.writeText 0 0 1 text]

/-- showResult: stopTwinkle, clear, Saved / Error plus an optional message
line (msg.slice(0, 21) at row 16). -/
def showResultOps (stars : List Star) (ok : Bool) (msg : String) : List OledOp :=
  stopTwinkleOps stars ++
    (if ok then [OledOp.clearAll, OledOp.writeText 0 0 1 "Saved ✓"]
     else [OledOp.clearAll, OledOp.writeText 0 0 1 "Error"] ++
       (if msg = "" then [] else [OledOp.writeText 0 16 1 (msg.take 21)]))

/-- One countdown frame: clear, caption, centred size-3 digit. -/
def countdownFrameOps (s : Nat) : List OledOp :=
  [OledOp.clearAll, OledOp.writeText 0 0 1 "Hold steady…",
   OledOp.writeText ((128 - charWidth 3) / 2) ((64 - charHeight 3) / 2) 3 (toString s)]

/-- showActiveCountdown: stopTwinkle once, then the seconds..1 frames. -/
def showActiveCountdownOps (stars : List Star) (seconds : Nat) : List OledOp :=
  stopTwinkleOps stars ++
    ((List.range seconds).map (fun i => countdownFrameOps (seconds - i))).flatten

/-- showRemainingBig: stopTwinkle, clear, caption, centred big count — the
idle screen, after which the twinkle restarts. -/
def showRemainingBigOps (stars : List Star) (n : Int) : List OledOp :=
  stopTwinkleOps stars ++
    [OledOp.clearAll, OledOp.writeText 0 0 1 "Shots left",
     OledOp.writeText ((128 - charWidth 3 * (toString n).length) / 2)
       ((64 - charHeight 3) / 2) 3 (toString n)]

/-- The reserved status-text line of the idle screen: "Shots left", ten
glyphs at size 1 from the origin. -/
def statusTextBox : Box :=
  { x0 := 0, y0 := 0, x1 := charWidth 1 * 10 - 1, y1 := charHeight 1 - 1 }

/-- The centred big-number area of the idle screen for a count of len
digits at size 3 (len is 1 or 2 for counts 0..10). -/
def bigNumberBox (len : Nat) : Box :=
  { x0 := (128 - charWidth 3 * len) / 2, y0 := (64 - charHeight 3) / 2,
    x1 := (128 - charWidth 3 * len) / 2 + charWidth 3 * len - 1,
    y1 := (64 - charHeight 3) / 2 + charHeight 3 - 1 }

def boxesDisjoint (a b : Box) : Bool :=
  decide (a.x1 < b.x0) || decide (b.x1 < a.x0) ||
    decide (a.y1 < b.y0) || decide (b.y1 < a.y0)

/-- All decorative points are erased in a draw-free prefix before any other
drawing command runs. -/
def erasesAllBeforeDrawing (stars : List Star) (ops : List OledOp) : Prop :=
  ∃ pre post, ops = pre ++ post ∧ (∀ op ∈ pre, isDrawOp op = false) ∧
    (∀ s ∈ stars, OledOp.pixelOff s.x s.y ∈ pre)

/-! ## Image saving pipeline (captureImage of the gallery variant) -/

def OUTPUT_PATH : String := "public/latest.webp"

def TEMP_PATH : String := "temp_capture.jpg"

def pad2 (n : Nat) : String := if n < 10 then "0" ++ toString n else toString n

/-- nowStamp: YYYY-MM-DD_HH-MM-SS built from the local clock fields. -/
def nowStamp (y mo d h mi s : Nat) : String :=
  toString y ++ "-" ++ pad2 mo ++ "-" ++ pad2 d ++ "_" ++
    pad2 h ++ "-" ++ pad2 mi ++ "-" ++ pad2 s

/-- captureImage: rpicam-still writes the temp JPEG, convert writes the
processed WebP to public/latest.webp, the temp file is unlinked, and the
processed image is copied (copyFileSync) to images/<stamp>.webp; that
filename is returned.  The filesystem is a map from paths to byte lists;
shot and converted are the bytes produced by the two external tools. -/
def captureImage (stamp : String) (shot converted : List Nat)
    (fs : String → Option (List Nat)) : String × (String → Option (List Nat)) :=
  let fs1 : String → Option (List Nat) :=
    fun p => if p = TEMP_PATH then some shot else fs p
  let fs2 : String → Option (List Nat) :=
    fun p => if p = OUTPUT_PATH then some converted else fs1 p
  let fs3 : String → Option (List Nat) :=
    fun p => if p = TEMP_PATH then none else fs2 p
  let name := stamp ++ ".webp"
  let fs4 : String → Option (List Nat) :=
    fun p => if p = "images/" ++ name then fs2 OUTPUT_PATH else fs3 p
  (name, fs4)

/-- Event counters over a trace. -/
def isNotifyEv : Ev → Bool
  | Ev.notifyCaptured _ => true
  | _ => false

def isResultEv : Ev → Bool
  | Ev.renderResult _ => true
  | _ => false

def notifyCount (tr : List (Nat × Ev)) : Nat :=
  (tr.filter (fun e => isNotifyEv e.2)).length

def resultCount (tr : List (Nat × Ev)) : Nat :=
  (tr.filter (fun e => isResultEv e.2)).length

/-! ## Helper lemmas -/

theorem capPromiseOutcome_true (cap : CapBehavior) (h : cap.ok = true) :
    capPromiseOutcome cap = Except.ok (some cap.filename) := by
  simp [capPromiseOutcome, h]

theorem capPromiseOutcome_false (cap : CapBehavior) (h : cap.ok = false) :
    capPromiseOutcome cap = Except.ok none := by
  simp [capPromiseOutcome, h]

theorem countdownTrace_eq :
    countdownTrace =
      [(0, Ev.renderCountdown 3), (1000, Ev.renderCountdown 2),
       (2000, Ev.renderCountdown 1)] := by
  rfl

theorem readState_writeState (today : String) (s : QuotaState) :
    readState today (writeState s) = (s, writeState s) := rfl

theorem ensureToday_of_today (today : String) (s : QuotaState) (f : StateFile)
    (h : s.date = today) : ensureToday today s f = (s, f) := by
  simp [ensureToday, h]

/-- The record produced by the load / ensureToday / canCapture chain is
dated today, its file mirror is exactly its persisted form, and the Bool
it returns is the positivity test of the loaded counter. -/
theorem loadChain_spec (today : String) (f : StateFile) :
    (loadChain today f).2.1.date = today ∧
    (loadChain today f).2.2 = writeState (loadChain today f).2.1 ∧
    (loadChain today f).1 = decide ((loadChain today f).2.1.shotsRemaining > 0) := by
  cases f with
  | absent =>
    simp [loadChain, readState, canCapture, ensureToday, defaultState, writeState]
  | invalid =>
    simp [loadChain, readState, canCapture, ensureToday, defaultState, writeState]
  | record d n =>
    by_cases hd : d = today <;>
      simp [loadChain, readState, canCapture, ensureToday, defaultState, writeState, hd]

/-- runCaptureWithUI on a capture that succeeds within the race deadline. -/
theorem run_success_eq (today : String) (cap : CapBehavior) (s : QuotaState)
    (f : StateFile) (hok : cap.ok = true) (hlat : cap.latency ≤ raceDeadline)
    (hdate : s.date = today) :
    runCaptureWithUI today cap s f =
      { trace := ((0, Ev.startCapture) ::
            (countdownTrace ++ [(COUNTDOWN_MS, Ev.renderProcessing)])) ++
          [(max COUNTDOWN_MS cap.latency, Ev.renderResult true),
           (max COUNTDOWN_MS cap.latency, Ev.setBusy false),
           (max COUNTDOWN_MS cap.latency, Ev.decQuota),
           (max COUNTDOWN_MS cap.latency, Ev.notifyCaptured (some cap.filename)),
           (max COUNTDOWN_MS cap.latency + SETTLE_MS,
             Ev.renderRemaining (max 0 (s.shotsRemaining - 1)))],
        result := Except.ok cap.filename,
        endTime := max COUNTDOWN_MS cap.latency,
        state := { date := s.date, shotsRemaining := max 0 (s.shotsRemaining - 1) },
        file := StateFile.record s.date (max 0 (s.shotsRemaining - 1)) } := by
  simp only [runCaptureWithUI, capPromiseOutcome_true cap hok, if_pos hlat,
    decAndPersist, writeState]
  simp [readState, ensureToday, hdate]

/-- runCaptureWithUI on a capture that fails (error recorded by the catch
handler) and settles within the race deadline. -/
theorem run_capfail_eq (today : String) (cap : CapBehavior) (s : QuotaState)
    (f : StateFile) (hok : cap.ok = false) (hlat : cap.latency ≤ raceDeadline) :
    runCaptureWithUI today cap s f =
      { trace := ((0, Ev.startCapture) ::
            (countdownTrace ++ [(COUNTDOWN_MS, Ev.renderProcessing)])) ++
          [(max COUNTDOWN_MS cap.latency, Ev.renderResult false)],
        result := Except.error cap.errMsg,
        endTime := max COUNTDOWN_MS cap.latency,
        state := s, file := f } := by
  simp only [runCaptureWithUI, capPromiseOutcome_false cap hok, if_pos hlat]

/-- runCaptureWithUI when the 30 s race timeout fires first: the timeout
error is rethrown and the function renders nothing further. -/
theorem run_timeout_eq (today : String) (cap : CapBehavior) (s : QuotaState)
    (f : StateFile) (hlat : raceDeadline < cap.latency) :
    runCaptureWithUI today cap s f =
      { trace := (0, Ev.startCapture) ::
          (countdownTrace ++ [(COUNTDOWN_MS, Ev.renderProcessing)]),
        result := Except.error "Capture timeout after 30 seconds",
        endTime := raceDeadline, state := s, file := f } := by
  simp only [runCaptureWithUI, if_neg (Nat.not_le.mpr hlat)]

/-! ## Theorems about the quota store -/

/-- C5 (amended): ensureToday and canCapture always leave the date equal to
today, and every operation preserves 0 ≤ shotsRemaining ≤ DAILY_LIMIT when
the record it starts from is within bounds; a load of an absent or
schema-invalid file yields a fresh in-invariant record.  However, a load of
a schema-valid stored record returns it unchanged, so a stored
out-of-range shotsRemaining (or stale date) survives readState. -/
theorem quota_invariant_amended :
    ∀ (today : String) (s : QuotaState) (f : StateFile),
      quotaInv today (readState today StateFile.absent).1 ∧
      quotaInv today (readState today StateFile.invalid).1 ∧
      ((ensureToday today s f).1.date = today) ∧
      (0 ≤ s.shotsRemaining → s.shotsRemaining ≤ DAILY_LIMIT →
        quotaInv today (ensureToday today s f).1) ∧
      (0 ≤ s.shotsRemaining → s.shotsRemaining ≤ DAILY_LIMIT →
        quotaInv today ((canCapture today s f).2.1)) ∧
      (0 ≤ s.shotsRemaining → s.shotsRemaining ≤ DAILY_LIMIT →
        0 ≤ (decAndPersist s).1.shotsRemaining ∧
          (decAndPersist s).1.shotsRemaining ≤ DAILY_LIMIT) ∧
      (∀ (d : String) (n : Int),
        (readState today (StateFile.record d n)).1 = { date := d, shotsRemaining := n }) := by
  intro today s f
  have hdate : (ensureToday today s f).1.date = today := by
    unfold ensureToday
    split
    · rfl
    · next h => simpa using h
  have hbounds : 0 ≤ s.shotsRemaining → s.shotsRemaining ≤ DAILY_LIMIT →
      quotaInv today (ensureToday today s f).1 := by
    intro h0 h1
    refine ⟨?_, ?_, hdate⟩
    · unfold ensureToday
      split
      · simp [DAILY_LIMIT]
      · exact h0
    · unfold ensureToday
      split
      · simp [DAILY_LIMIT]
      · exact h1
  refine ⟨?_, ?_, hdate, hbounds, fun h0 h1 => hbounds h0 h1, ?_, fun d n => rfl⟩
  · exact ⟨by simp [readState, defaultState, DAILY_LIMIT],
      by simp [readState, defaultState, DAILY_LIMIT], rfl⟩
  · exact ⟨by simp [readState, defaultState, DAILY_LIMIT],
      by simp [readState, defaultState, DAILY_LIMIT], rfl⟩
  · intro h0 h1
    constructor
    · simp [decAndPersist]
    · simp only [decAndPersist]
      omega

/-- C5 witness: a stale record from yesterday is rolled forward into the
invariant by ensureToday. -/
theorem quota_invariant_amended_witness :
    quotaInv "2025-03-01"
      (ensureToday "2025-03-01" { date := "2025-02-28", shotsRemaining := 3 }
        (StateFile.record "2025-02-28" 3)).1 :=
  (quota_invariant_amended "2025-03-01" { date := "2025-02-28", shotsRemaining := 3 }
    (StateFile.record "2025-02-28" 3)).2.2.2.1 (by decide) (by decide)

/-- C5 counterexample: readState returns a schema-valid stored record
as-is, so a stored shotsRemaining of 99 survives the load and violates
0 ≤ shotsRemaining ≤ DAILY_LIMIT even though the access succeeded. -/
theorem quota_invariant_counterexample :
    DAILY_LIMIT <
      (readState "2025-03-01" (StateFile.record "2025-03-01" 99)).1.shotsRemaining := by
  decide

/-- C8: ensureToday resets the quota to DAILY_LIMIT and the date to today
exactly when the stored date is not today, it is a strict no-op (neither
the record nor the file changes) when the date is already today, and it is
idempotent, so the reset happens at most once per date change. -/
theorem ensureToday_resets_exactly_once :
    ∀ (today : String) (s : QuotaState) (f : StateFile),
      (s.date ≠ today →
        ensureToday today s f =
          ({ date := today, shotsRemaining := DAILY_LIMIT },
            StateFile.record today DAILY_LIMIT)) ∧
      (s.date = today → ensureToday today s f = (s, f)) ∧
      (ensureToday today (ensureToday today s f).1 (ensureToday today s f).2 =
        ensureToday today s f) := by
  intro today s f
  by_cases h : s.date = today
  · refine ⟨fun hne => absurd h hne, fun _ => ?_, ?_⟩
    · simp [ensureToday, h]
    · simp [ensureToday, h]
  · refine ⟨fun _ => ?_, fun he => absurd he h, ?_⟩
    · simp [ensureToday, h, writeState]
    · simp [ensureToday, h, writeState]

/-- C8 witness: rolling a stale record forward once, then accessing again
the same day, changes nothing the second time. -/
theorem ensureToday_resets_exactly_once_witness :
    ensureToday "2025-03-01" { date := "2025-02-28", shotsRemaining := 3 }
        (StateFile.record "2025-02-28" 3) =
      ({ date := "2025-03-01", shotsRemaining := DAILY_LIMIT },
        StateFile.record "2025-03-01" DAILY_LIMIT) :=
  (ensureToday_resets_exactly_once "2025-03-01"
    { date := "2025-02-28", shotsRemaining := 3 }
    (StateFile.record "2025-02-28" 3)).1 (by decide)

/-! ## Theorems about the capture orchestration -/

/-- The timestamps of all busy-clearing events of a trace. -/
def busyClearTimes (tr : List (Nat × Ev)) : List Nat :=
  (tr.filter (fun e => e.2 == Ev.setBusy false)).map Prod.fst

/-- C1: for every accepted capture request, the quota is decremented and
exactly one captured notification is broadcast iff the capture completes
successfully before the safety timeout fires; when the capture fails or
the timeout elapses first, the quota file is unchanged, no notification is
broadcast, and a failure Result is rendered instead (and the request
answers 500). -/
theorem capture_decrements_and_notifies_iff_success :
    ∀ (today : String) (ts : Nat) (cap : CapBehavior) (w : World),
      w.busy = false → quotaAvailable today w.file = true →
      ((cap.ok = true ∧ cap.latency ≤ raceDeadline) →
        notifyCount (capturePost today ts cap w).trace = 1 ∧
        (capturePost today ts cap w).world.file =
          StateFile.record today ((loadedToday today w.file).shotsRemaining - 1) ∧
        (capturePost today ts cap w).response.status = 200) ∧
      (¬(cap.ok = true ∧ cap.latency ≤ raceDeadline) →
        notifyCount (capturePost today ts cap w).trace = 0 ∧
        (capturePost today ts cap w).world.file = writeState (loadedToday today w.file) ∧
        (∃ t, (t, Ev.renderResult false) ∈ (capturePost today ts cap w).trace) ∧
        (capturePost today ts cap w).response.status = 500) := by
  intro today ts cap w hbusy hquota
  obtain ⟨hdate, hfile, hpos⟩ := loadChain_spec today w.file
  have hq : (loadChain today w.file).1 = true := hquota
  have hn : 0 < (loadChain today w.file).2.1.shotsRemaining := by
    rw [hq] at hpos
    exact of_decide_eq_true hpos.symm
  constructor
  · rintro ⟨hok, hlat⟩
    have hrun := run_success_eq today cap (loadChain today w.file).2.1
      (loadChain today w.file).2.2 hok hlat hdate
    simp only [capturePost, hbusy, Bool.false_eq_true, if_false, hq, hrun]
    refine ⟨?_, ?_, rfl⟩
    · simp [notifyCount, countdownTrace_eq, isNotifyEv]
    · simp only [loadedToday, hdate]
      have hmax : max 0 ((loadChain today w.file).2.1.shotsRemaining - 1)
          = (loadChain today w.file).2.1.shotsRemaining - 1 := by omega
      rw [hmax]
      rfl
  · intro hne
    rcases Nat.lt_or_ge raceDeadline cap.latency with hlat | hlat
    · have hrun := run_timeout_eq today cap (loadChain today w.file).2.1
        (loadChain today w.file).2.2 hlat
      simp only [capturePost, hbusy, Bool.false_eq_true, if_false, hq, hrun]
      refine ⟨?_, ?_, ?_, rfl⟩
      · simp [notifyCount, countdownTrace_eq, isNotifyEv, readState]
      · simp [readState, hfile, writeState, loadedToday]
      · exact ⟨raceDeadline, by simp [countdownTrace_eq]⟩
    · have hok : cap.ok = false := by
        rcases Bool.eq_false_or_eq_true cap.ok with h | h
        · exact absurd ⟨h, hlat⟩ hne
        · exact h
      have hrun := run_capfail_eq today cap (loadChain today w.file).2.1
        (loadChain today w.file).2.2 hok hlat
      simp only [capturePost, hbusy, Bool.false_eq_true, if_false, hq, hrun]
      refine ⟨?_, ?_, ?_, rfl⟩
      · simp [notifyCount, countdownTrace_eq, isNotifyEv, readState]
      · simp [readState, hfile, writeState, loadedToday]
      · exact ⟨max COUNTDOWN_MS cap.latency, by simp [countdownTrace_eq]⟩

/-- C1 witness: a capture succeeding 5 s in, with quota 10, notifies once,
persists 9 shots and answers 200. -/
theorem capture_decrements_and_notifies_iff_success_witness :
    notifyCount (capturePost "2025-03-01" 0
        { ok := true, filename := "a.webp", errMsg := "e", latency := 5000 }
        { busy := false, file := StateFile.record "2025-03-01" 10 }).trace = 1 ∧
    (capturePost "2025-03-01" 0
        { ok := true, filename := "a.webp", errMsg := "e", latency := 5000 }
        { busy := false, file := StateFile.record "2025-03-01" 10 }).world.file =
      StateFile.record "2025-03-01"
        ((loadedToday "2025-03-01" (StateFile.record "2025-03-01" 10)).shotsRemaining - 1) ∧
    (capturePost "2025-03-01" 0
        { ok := true, filename := "a.webp", errMsg := "e", latency := 5000 }
        { busy := false, file := StateFile.record "2025-03-01" 10 }).response.status = 200 :=
  (capture_decrements_and_notifies_iff_success "2025-03-01" 0
    { ok := true, filename := "a.webp", errMsg := "e", latency := 5000 }
    { busy := false, file := StateFile.record "2025-03-01" 10 }
    rfl (by decide)).1 ⟨rfl, by decide⟩

/-- C2 counterexample: on a successful capture the orchestrator emits
setBusy false at the Result render (t = 3000 ms), which is the full settle
delay (800 ms) before the idle re-render at 3800 ms — busy does not stay
true until the machine has returned to Idle. -/
theorem busy_release_counterexample :
    (3000, Ev.setBusy false) ∈
      (capturePost "2025-03-01" 0
        { ok := true, filename := "b.webp", errMsg := "e", latency := 0 }
        { busy := false, file := StateFile.record "2025-03-01" 10 }).trace ∧
    (3000 + SETTLE_MS, Ev.renderRemaining 9) ∈
      (capturePost "2025-03-01" 0
        { ok := true, filename := "b.webp", errMsg := "e", latency := 0 }
        { busy := false, file := StateFile.record "2025-03-01" 10 }).trace ∧
    3000 < 3000 + SETTLE_MS := by
  decide

/-- C2 (amended): busy is held from acceptance through the countdown and
processing phases — every busy-clearing event happens exactly at the run's
end time, never earlier than the countdown's end — but it is released at
the Result phase: on success it is cleared at the Result render itself,
the full settle delay before the renderRemaining idle restore, and on
failure or timeout it is cleared by the caller right after the failure
render, so a second request can be accepted during the settle window. -/
theorem busy_released_at_result_not_after_settle :
    ∀ (today : String) (ts : Nat) (cap : CapBehavior) (w : World),
      w.busy = false → quotaAvailable today w.file = true →
      (cap.ok = true → cap.latency ≤ raceDeadline →
        busyClearTimes (capturePost today ts cap w).trace =
          [max COUNTDOWN_MS cap.latency, max COUNTDOWN_MS cap.latency] ∧
        (max COUNTDOWN_MS cap.latency + SETTLE_MS,
          Ev.renderRemaining ((loadedToday today w.file).shotsRemaining - 1)) ∈
          (capturePost today ts cap w).trace) ∧
      (cap.ok = false → cap.latency ≤ raceDeadline →
        busyClearTimes (capturePost today ts cap w).trace =
          [max COUNTDOWN_MS cap.latency]) ∧
      (raceDeadline < cap.latency →
        busyClearTimes (capturePost today ts cap w).trace = [raceDeadline]) ∧
      (∀ t ∈ busyClearTimes (capturePost today ts cap w).trace, COUNTDOWN_MS ≤ t) := by
  intro today ts cap w hbusy hquota
  obtain ⟨hdate, hfile, hpos⟩ := loadChain_spec today w.file
  have hq : (loadChain today w.file).1 = true := hquota
  have hn : 0 < (loadChain today w.file).2.1.shotsRemaining := by
    rw [hq] at hpos
    exact of_decide_eq_true hpos.symm
  have hsucc : cap.ok = true → cap.latency ≤ raceDeadline →
      busyClearTimes (capturePost today ts cap w).trace =
        [max COUNTDOWN_MS cap.latency, max COUNTDOWN_MS cap.latency] ∧
      (max COUNTDOWN_MS cap.latency + SETTLE_MS,
        Ev.renderRemaining ((loadedToday today w.file).shotsRemaining - 1)) ∈
        (capturePost today ts cap w).trace := by
    intro hok hlat
    have hrun := run_success_eq today cap (loadChain today w.file).2.1
      (loadChain today w.file).2.2 hok hlat hdate
    simp only [capturePost, hbusy, Bool.false_eq_true, if_false, hq, hrun]
    constructor
    · simp [busyClearTimes, countdownTrace_eq]
    · have hmax : max 0 ((loadChain today w.file).2.1.shotsRemaining - 1)
          = (loadChain today w.file).2.1.shotsRemaining - 1 := by omega
      simp only [loadedToday]
      simp [countdownTrace_eq, hmax]
  have hcapfail : cap.ok = false → cap.latency ≤ raceDeadline →
      busyClearTimes (capturePost today ts cap w).trace =
        [max COUNTDOWN_MS cap.latency] := by
    intro hok hlat
    have hrun := run_capfail_eq today cap (loadChain today w.file).2.1
      (loadChain today w.file).2.2 hok hlat
    simp only [capturePost, hbusy, Bool.false_eq_true, if_false, hq, hrun]
    simp [busyClearTimes, countdownTrace_eq, readState]
  have htime : raceDeadline < cap.latency →
      busyClearTimes (capturePost today ts cap w).trace = [raceDeadline] := by
    intro hlat
    have hrun := run_timeout_eq today cap (loadChain today w.file).2.1
      (loadChain today w.file).2.2 hlat
    simp only [capturePost, hbusy, Bool.false_eq_true, if_false, hq, hrun]
    simp [busyClearTimes, countdownTrace_eq, readState]
  refine ⟨hsucc, hcapfail, htime, ?_⟩
  intro t ht
  rcases Nat.lt_or_ge raceDeadline cap.latency with hlat | hlat
  · rw [htime hlat] at ht
    simp at ht
    subst ht
    decide
  · rcases Bool.eq_false_or_eq_true cap.ok with hok | hok
    · rw [(hsucc hok hlat).1] at ht
      simp at ht
      subst ht
      exact Nat.le_max_left _ _
    · rw [hcapfail hok hlat] at ht
      simp at ht
      subst ht
      exact Nat.le_max_left _ _

/-- C2 witness: a capture failing at 2 s clears busy exactly once, at the
Result time 3000 ms. -/
theorem busy_released_at_result_not_after_settle_witness :
    busyClearTimes (capturePost "2025-03-01" 0
        { ok := false, filename := "b.webp", errMsg := "boom", latency := 2000 }
        { busy := false, file := StateFile.record "2025-03-01" 10 }).trace =
      [max COUNTDOWN_MS 2000] :=
  ((busy_released_at_result_not_after_settle "2025-03-01" 0
    { ok := false, filename := "b.webp", errMsg := "boom", latency := 2000 }
    { busy := false, file := StateFile.record "2025-03-01" 10 }
    rfl (by decide)).2.1) rfl (by decide)

/-- The response table exactly as the spec words it: 409 Busy while a
capture is active, else 403 when the quota is exhausted, else 200 with url
and saved on success, else 500 Capture failed. -/
def specCaptureResponse (busy quotaOk success : Bool) (ts : Nat)
    (filename : String) : HttpResponse :=
  if busy then
    { status := 409, ok := false, error := some "Busy", url := none, saved := none }
  else if quotaOk = false then
    { status := 403, ok := false, error := some "Daily limit reached",
      url := none, saved := none }
  else if success then
    { status := 200, ok := true, error := none,
      url := some ("/latest.webp?ts=" ++ toString ts),
      saved := some ("/images/" ++ encodeURIComponent filename) }
  else
    { status := 500, ok := false, error := some "Capture failed",
      url := none, saved := none }

/-- C3: every POST /capture response matches the four-row spec table, the
busy check precedes the quota check (a busy request answers 409 whatever
the quota), and the capturer is invoked exactly when the request is not
busy and the quota allows it — so a limit-reached request never invokes
the capture operation. -/
theorem capture_response_table :
    ∀ (today : String) (ts : Nat) (cap : CapBehavior) (w : World),
      (capturePost today ts cap w).response =
        specCaptureResponse w.busy (quotaAvailable today w.file)
          (cap.ok && decide (cap.latency ≤ raceDeadline)) ts cap.filename ∧
      (capturePost today ts cap w).invokedCapturer =
        (!w.busy && quotaAvailable today w.file) := by
  intro today ts cap w
  obtain ⟨hdate, hfile, hpos⟩ := loadChain_spec today w.file
  cases hb : w.busy
  · cases hq : quotaAvailable today w.file
    · have hq2 : (loadChain today w.file).1 = false := hq
      simp [capturePost, hb, hq2, specCaptureResponse, quotaAvailable, errorResponse]
    · have hq2 : (loadChain today w.file).1 = true := hq
      rcases Bool.eq_false_or_eq_true cap.ok with hok | hok
      · rcases le_or_lt cap.latency raceDeadline with hlat | hlat
        · have hrun := run_success_eq today cap (loadChain today w.file).2.1
            (loadChain today w.file).2.2 hok hlat hdate
          simp [capturePost, hb, hq2, hrun, specCaptureResponse, quotaAvailable,
            hok, hlat, successResponse]
        · have hrun := run_timeout_eq today cap (loadChain today w.file).2.1
            (loadChain today w.file).2.2 hlat
          simp [capturePost, hb, hq2, hrun, specCaptureResponse, quotaAvailable,
            hok, Nat.not_le.mpr hlat, errorResponse]
      · rcases le_or_lt cap.latency raceDeadline with hlat | hlat
        · have hrun := run_capfail_eq today cap (loadChain today w.file).2.1
            (loadChain today w.file).2.2 hok hlat
          simp [capturePost, hb, hq2, hrun, specCaptureResponse, quotaAvailable,
            hok, hlat, errorResponse]
        · have hrun := run_timeout_eq today cap (loadChain today w.file).2.1
            (loadChain today w.file).2.2 hlat
          simp [capturePost, hb, hq2, hrun, specCaptureResponse, quotaAvailable,
            hok, Nat.not_le.mpr hlat, errorResponse]
  · simp [capturePost, hb, specCaptureResponse, errorResponse]

/-- C4 counterexample: a button trigger arriving while busy renders a
"Busy…" status message on the display — the display contents are not left
exactly as they were. -/
theorem busy_trigger_display_counterexample :
    (buttonAlert "2025-03-01" 0
        { ok := true, filename := "d.webp", errMsg := "e", latency := 0 }
        { busy := true, file := StateFile.record "2025-03-01" 5 }).trace =
      [(0, Ev.renderStatus "Busy…")] := by
  decide

/-- C4 (amended): a trigger arriving while busy is rejected with Busy and
leaves the quota record (memory and disk) untouched and the capturer
uninvoked; the HTTP path also leaves the display untouched, but the button
path draws a "Busy…" status message (which, in the twinkle variant, also
runs the stop-and-clear of the idle animation), so the display contents
are not preserved. -/
theorem busy_trigger_rejected_quota_untouched :
    ∀ (today : String) (ts : Nat) (cap : CapBehavior) (w : World),
      w.busy = true →
      (capturePost today ts cap w).response = errorResponse 409 "Busy" ∧
      (capturePost today ts cap w).world = w ∧
      (capturePost today ts cap w).trace = [] ∧
      (capturePost today ts cap w).invokedCapturer = false ∧
      (buttonAlert today 0 cap w).world = w ∧
      (buttonAlert today 0 cap w).invokedCapturer = false ∧
      (buttonAlert today 0 cap w).trace = [(0, Ev.renderStatus "Busy…")] := by
  intro today ts cap w hb
  refine ⟨?_, ?_, ?_, ?_, ?_, ?_, ?_⟩ <;> simp [capturePost, buttonAlert, hb]

/-- C4 witness: the amended statement at a concrete busy world. -/
theorem busy_trigger_rejected_quota_untouched_witness :
    (capturePost "2025-03-01" 0
        { ok := true, filename := "d.webp", errMsg := "e", latency := 0 }
        { busy := true, file := StateFile.record "2025-03-01" 5 }).world =
      { busy := true, file := StateFile.record "2025-03-01" 5 } ∧
    (capturePost "2025-03-01" 0
        { ok := true, filename := "d.webp", errMsg := "e", latency := 0 }
        { busy := true, file := StateFile.record "2025-03-01" 5 }).trace = [] :=
  have h := busy_trigger_rejected_quota_untouched "2025-03-01" 0
    { ok := true, filename := "d.webp", errMsg := "e", latency := 0 }
    { busy := true, file := StateFile.record "2025-03-01" 5 } rfl
  ⟨h.2.1, h.2.2.1⟩

/-- C6: when the capture settles only after the safety timeout has fired
(whether it would have succeeded or failed), its late result is discarded:
the trace contains exactly one Result render (the timeout failure), no
notification, the quota file is unchanged, the response is the 500
failure, and the self-catching capture promise settles as a resolution —
never as an escaping rejection. -/
theorem late_result_discarded :
    ∀ (today : String) (ts : Nat) (cap : CapBehavior) (w : World),
      w.busy = false → quotaAvailable today w.file = true →
      raceDeadline < cap.latency →
      resultCount (capturePost today ts cap w).trace = 1 ∧
      notifyCount (capturePost today ts cap w).trace = 0 ∧
      (capturePost today ts cap w).world.file = writeState (loadedToday today w.file) ∧
      (capturePost today ts cap w).response = errorResponse 500 "Capture failed" ∧
      (∃ v, capPromiseOutcome cap = Except.ok v) := by
  intro today ts cap w hbusy hquota hlat
  obtain ⟨hdate, hfile, hpos⟩ := loadChain_spec today w.file
  have hq : (loadChain today w.file).1 = true := hquota
  have hrun := run_timeout_eq today cap (loadChain today w.file).2.1
    (loadChain today w.file).2.2 hlat
  simp only [capturePost, hbusy, Bool.false_eq_true, if_false, hq, hrun]
  refine ⟨?_, ?_, ?_, rfl, ⟨if cap.ok then some cap.filename else none, rfl⟩⟩
  · simp [resultCount, countdownTrace_eq, isResultEv, readState]
  · simp [notifyCount, countdownTrace_eq, isNotifyEv, readState]
  · simp [readState, hfile, writeState, loadedToday]

/-- C6 witness: a capture that fails 40 s in — after the timeout has
already produced the failure — is discarded exactly as stated. -/
theorem late_result_discarded_witness :
    resultCount (capturePost "2025-03-01" 0
        { ok := false, filename := "f.webp", errMsg := "late boom", latency := 40000 }
        { busy := false, file := StateFile.record "2025-03-01" 10 }).trace = 1 ∧
    notifyCount (capturePost "2025-03-01" 0
        { ok := false, filename := "f.webp", errMsg := "late boom", latency := 40000 }
        { busy := false, file := StateFile.record "2025-03-01" 10 }).trace = 0 ∧
    (capturePost "2025-03-01" 0
        { ok := false, filename := "f.webp", errMsg := "late boom", latency := 40000 }
        { busy := false, file := StateFile.record "2025-03-01" 10 }).world.file =
      writeState (loadedToday "2025-03-01" (StateFile.record "2025-03-01" 10)) ∧
    (capturePost "2025-03-01" 0
        { ok := false, filename := "f.webp", errMsg := "late boom", latency := 40000 }
        { busy := false, file := StateFile.record "2025-03-01" 10 }).response =
      errorResponse 500 "Capture failed" ∧
    (∃ v, capPromiseOutcome
        { ok := false, filename := "f.webp", errMsg := "late boom", latency := 40000 } =
      Except.ok v) :=
  late_result_discarded "2025-03-01" 0
    { ok := false, filename := "f.webp", errMsg := "late boom", latency := 40000 }
    { busy := false, file := StateFile.record "2025-03-01" 10 }
    rfl (by decide) (by decide)

/-- C7 counterexample: a capture that settles 31 s after step 1 — beyond a
30 s timeout measured from step 1 — is still accepted as a success (200),
because the 30 s race timer is only created after the countdown. -/
theorem timeout_measured_from_step1_counterexample :
    RACE_TIMEOUT_MS < 31000 ∧
    (capturePost "2025-03-01" 0
        { ok := true, filename := "c.webp", errMsg := "e", latency := 31000 }
        { busy := false, file := StateFile.record "2025-03-01" 10 }).response.status =
      200 := by
  decide

/-- C7 (amended): the capture operation is started asynchronously the
instant the request is accepted, before the first countdown render, but
the 30 s safety timeout is measured from the start of the processing wait
(after the countdown): a capture is processed as a success exactly when it
succeeds and settles within COUNTDOWN_MS + RACE_TIMEOUT_MS of step 1. -/
theorem capture_started_at_accept_deadline_after_countdown :
    ∀ (today : String) (ts : Nat) (cap : CapBehavior) (w : World),
      w.busy = false → quotaAvailable today w.file = true →
      (capturePost today ts cap w).trace.take 2 =
        [(0, Ev.setBusy true), (0, Ev.startCapture)] ∧
      (COUNTDOWN_MS, Ev.renderProcessing) ∈ (capturePost today ts cap w).trace ∧
      ((capturePost today ts cap w).response.status = 200 ↔
        (cap.ok = true ∧ cap.latency ≤ COUNTDOWN_MS + RACE_TIMEOUT_MS)) := by
  intro today ts cap w hbusy hquota
  obtain ⟨hdate, hfile, hpos⟩ := loadChain_spec today w.file
  have hq : (loadChain today w.file).1 = true := hquota
  rcases Bool.eq_false_or_eq_true cap.ok with hok | hok
  · rcases le_or_lt cap.latency raceDeadline with hlat | hlat
    · have hrun := run_success_eq today cap (loadChain today w.file).2.1
        (loadChain today w.file).2.2 hok hlat hdate
      simp only [capturePost, hbusy, Bool.false_eq_true, if_false, hq, hrun]
      refine ⟨rfl, by simp [countdownTrace_eq], ?_⟩
      simp only [successResponse]
      simpa [hok] using hlat
    · have hrun := run_timeout_eq today cap (loadChain today w.file).2.1
        (loadChain today w.file).2.2 hlat
      refine ⟨?_, ?_, ?_⟩
      · simp only [capturePost, hbusy, Bool.false_eq_true, if_false, hq, hrun]
        rfl
      · simp [capturePost, hbusy, hq, hrun, countdownTrace_eq]
      · simp [capturePost, hbusy, hq, hrun, errorResponse, raceDeadline, hok,
          Nat.not_le.mpr hlat]
        exact hlat
  · rcases le_or_lt cap.latency raceDeadline with hlat | hlat
    · have hrun := run_capfail_eq today cap (loadChain today w.file).2.1
        (loadChain today w.file).2.2 hok hlat
      simp only [capturePost, hbusy, Bool.false_eq_true, if_false, hq, hrun]
      refine ⟨rfl, by simp [countdownTrace_eq], ?_⟩
      simp [errorResponse, hok]
    · have hrun := run_timeout_eq today cap (loadChain today w.file).2.1
        (loadChain today w.file).2.2 hlat
      simp only [capturePost, hbusy, Bool.false_eq_true, if_false, hq, hrun]
      refine ⟨rfl, by simp [countdownTrace_eq], ?_⟩
      simp [errorResponse, hok]

/-- C7 amended witness: the concrete success run of the amendment. -/
theorem capture_started_at_accept_deadline_after_countdown_witness :
    (capturePost "2025-03-01" 0
        { ok := true, filename := "c.webp", errMsg := "e", latency := 31000 }
        { busy := false, file := StateFile.record "2025-03-01" 10 }).trace.take 2 =
      [(0, Ev.setBusy true), (0, Ev.startCapture)] ∧
    (COUNTDOWN_MS, Ev.renderProcessing) ∈
      (capturePost "2025-03-01" 0
        { ok := true, filename := "c.webp", errMsg := "e", latency := 31000 }
        { busy := false, file := StateFile.record "2025-03-01" 10 }).trace ∧
    ((capturePost "2025-03-01" 0
        { ok := true, filename := "c.webp", errMsg := "e", latency := 31000 }
        { busy := false, file := StateFile.record "2025-03-01" 10 }).response.status = 200 ↔
      (({ ok := true, filename := "c.webp", errMsg := "e", latency := 31000 } :
          CapBehavior).ok = true ∧
        ({ ok := true, filename := "c.webp", errMsg := "e", latency := 31000 } :
          CapBehavior).latency ≤ COUNTDOWN_MS + RACE_TIMEOUT_MS)) :=
  capture_started_at_accept_deadline_after_countdown "2025-03-01" 0
    { ok := true, filename := "c.webp", errMsg := "e", latency := 31000 }
    { busy := false, file := StateFile.record "2025-03-01" 10 } rfl (by decide)


/-! ## Theorems about the idle animation and presenter -/

theorem randInt_mem (r lo hi : Nat) (h : lo ≤ hi) :
    lo ≤ randInt r lo hi ∧ randInt r lo hi ≤ hi := by
  unfold randInt
  have := Nat.mod_lt r (show 0 < hi - lo + 1 by omega)
  omega

theorem boxFor_cases (i : Nat) :
    boxFor i = { x0 := 104, y0 := 0, x1 := 127, y1 := 15 } ∨
    boxFor i = { x0 := 0, y0 := 48, x1 := 27, y1 := 63 } := by
  rcases Nat.mod_two_eq_zero_or_one i with h | h <;>
    simp [boxFor, BOXES, h]

theorem randomPoint_safe (i r1 r2 : Nat) :
    inSafeRegion (randomPointInBox (boxFor i) r1 r2).1
      (randomPointInBox (boxFor i) r1 r2).2 = true := by
  rcases boxFor_cases i with h | h <;>
  · rw [h]
    simp [inSafeRegion, BOXES, inBox, randomPointInBox, randInt]
    omega

theorem seedStars_safe (rng : Nat → Nat × Nat) (flip : Nat → Bool) :
    ∀ s ∈ seedStars rng flip, inSafeRegion s.x s.y = true := by
  intro s hs
  simp only [seedStars, List.mem_map, List.mem_range] at hs
  obtain ⟨i, _, rfl⟩ := hs
  exact randomPoint_safe i (rng i).1 (rng i).2

theorem toggleStars_safe (flip : Nat → Bool) :
    ∀ (i : Nat) (stars : List Star),
      (∀ s ∈ stars, inSafeRegion s.x s.y = true) →
      ∀ s ∈ toggleStars flip i stars, inSafeRegion s.x s.y = true := by
  intro i stars
  induction stars generalizing i with
  | nil =>
    intro _ s hs
    simp [toggleStars] at hs
  | cons a rest ih =>
    intro h s hs
    simp only [toggleStars, List.mem_cons] at hs
    rcases hs with rfl | hs
    · have ha := h a (List.mem_cons_self a rest)
      cases hflip : flip i
      · simpa [hflip] using ha
      · simpa [hflip] using ha
    · exact ih (i + 1) (fun t ht => h t (List.mem_cons_of_mem a ht)) s hs

theorem moveOneStar_safe (stars : List Star) (ridx r1 r2 : Nat)
    (h : ∀ s ∈ stars, inSafeRegion s.x s.y = true) :
    ∀ s ∈ moveOneStar stars ridx r1 r2, inSafeRegion s.x s.y = true := by
  intro s hs
  unfold moveOneStar at hs
  rcases List.mem_or_eq_of_mem_set hs with h1 | h1
  · exact h s h1
  · subst h1
    exact randomPoint_safe (randInt ridx 0 (stars.length - 1)) r1 r2

theorem moveStars_safe :
    ∀ (rs : List (Nat × Nat × Nat)) (stars : List Star),
      (∀ s ∈ stars, inSafeRegion s.x s.y = true) →
      ∀ s ∈ moveStars rs stars, inSafeRegion s.x s.y = true := by
  intro rs
  induction rs with
  | nil =>
    intro stars h
    simpa [moveStars] using h
  | cons r rest ih =>
    intro stars h
    simp only [moveStars]
    exact ih (moveOneStar stars r.1 r.2.1 r.2.2) (moveOneStar_safe stars r.1 r.2.1 r.2.2 h)

theorem stopTwinkle_prefix (stars : List Star) (rest : List OledOp) :
    erasesAllBeforeDrawing stars (stopTwinkleOps stars ++ rest) := by
  refine ⟨stopTwinkleOps stars, rest, rfl, ?_, ?_⟩
  · intro op hop
    simp only [stopTwinkleOps, List.mem_map] at hop
    obtain ⟨a, _, rfl⟩ := hop
    rfl
  · intro s hs
    simp only [stopTwinkleOps, List.mem_map]
    exact ⟨s, hs, rfl⟩

/-- C9: the presenter erases every decorative point, in a draw-free prefix,
before any non-Idle phase content (status, result, countdown) is drawn —
and before the idle screen redraw too; freshly seeded, toggled and
relocated stars always lie inside the designated safe boxes, whatever the
random draws; and the safe boxes are disjoint from the reserved
status-text line and from the centred big-number area of the idle
screen. -/
theorem idle_animation_confined :
    ∀ stars : List Star,
      (∀ text, erasesAllBeforeDrawing stars (showStatusOps stars text)) ∧
      (∀ ok msg, erasesAllBeforeDrawing stars (showResultOps stars ok msg)) ∧
      (∀ seconds, erasesAllBeforeDrawing stars (showActiveCountdownOps stars seconds)) ∧
      (∀ n, erasesAllBeforeDrawing stars (showRemainingBigOps stars n)) ∧
      (∀ rng flip, ∀ s ∈ seedStars rng flip, inSafeRegion s.x s.y = true) ∧
      (∀ flip i, (∀ s ∈ stars, inSafeRegion s.x s.y = true) →
        ∀ s ∈ toggleStars flip i stars, inSafeRegion s.x s.y = true) ∧
      (∀ rs, (∀ s ∈ stars, inSafeRegion s.x s.y = true) →
        ∀ s ∈ moveStars rs stars, inSafeRegion s.x s.y = true) ∧
      (∀ b ∈ BOXES, boxesDisjoint b statusTextBox = true ∧
        boxesDisjoint b (bigNumberBox 1) = true ∧
        boxesDisjoint b (bigNumberBox 2) = true) := by
  intro stars
  refine ⟨fun text => stopTwinkle_prefix stars _,
    fun ok msg => stopTwinkle_prefix stars _,
    fun seconds => stopTwinkle_prefix stars _,
    fun n => stopTwinkle_prefix stars _,
    fun rng flip => seedStars_safe rng flip,
    fun flip i => toggleStars_safe flip i stars,
    fun rs => moveStars_safe rs stars,
    ?_⟩
  intro b hb
  simp only [BOXES, List.mem_cons, List.not_mem_nil, or_false] at hb
  rcases hb with rfl | rfl <;> exact ⟨by decide, by decide, by decide⟩

/-- C9 witness: a concrete star list through the status render, a toggled
star still inside a safe region, and a relocated star still inside a safe
region. -/
theorem idle_animation_confined_witness :
    erasesAllBeforeDrawing [{ x := 104, y := 0, lit := true }]
      (showStatusOps [{ x := 104, y := 0, lit := true }] "Processing...") ∧
    inSafeRegion 104 0 = true :=
  have h := idle_animation_confined [{ x := 104, y := 0, lit := true }]
  ⟨h.1 "Processing...",
    h.2.2.2.2.2.1 (fun _ => true) 0 (by decide)
      { x := 104, y := 0, lit := false } (by decide)⟩


/-! ## Theorems about the image saving pipeline -/

theorem encodeChars_of_unreserved :
    ∀ l : List Char, (∀ c ∈ l, isUnreservedChar c = true) →
      encodeChars l = String.mk l := by
  intro l
  induction l with
  | nil => intro _; rfl
  | cons c cs ih =>
    intro h
    have hc := h c (List.mem_cons_self c cs)
    have hrest := ih (fun d hd => h d (List.mem_cons_of_mem c hd))
    simp only [encodeChars, hc, if_true]
    rw [hrest]
    rfl

/-- C10: on a successful capture, the gallery file images/<stamp>.webp is
byte-identical to public/latest.webp (both hold the converted bytes), the
capture returns exactly that filename, the 200 response's saved field is
"/images/" ++ encodeURIComponent(filename), and encodeURIComponent is the
identity on filenames made only of unreserved characters (as timestamp
names are). -/
theorem capture_saves_gallery_copy :
    ∀ (stamp : String) (shot converted : List Nat)
      (fs : String → Option (List Nat)),
      "images/" ++ (stamp ++ ".webp") ≠ OUTPUT_PATH →
      (captureImage stamp shot converted fs).1 = stamp ++ ".webp" ∧
      (captureImage stamp shot converted fs).2
          ("images/" ++ (captureImage stamp shot converted fs).1) = some converted ∧
      (captureImage stamp shot converted fs).2 OUTPUT_PATH = some converted ∧
      (∀ (today : String) (ts : Nat) (cap : CapBehavior) (w : World),
        w.busy = false → quotaAvailable today w.file = true →
        cap.ok = true → cap.latency ≤ raceDeadline →
        (capturePost today ts cap w).response.saved =
          some ("/images/" ++ encodeURIComponent cap.filename)) ∧
      (∀ s2 : String, (∀ c ∈ s2.toList, isUnreservedChar c = true) →
        encodeURIComponent s2 = s2) := by
  intro stamp shot converted fs hne
  refine ⟨rfl, ?_, ?_, ?_, ?_⟩
  · simp [captureImage]
  · simp [captureImage, Ne.symm hne,
      show OUTPUT_PATH ≠ TEMP_PATH from by decide]
  · intro today ts cap w hb hq hok hlat
    obtain ⟨hdate, _, _⟩ := loadChain_spec today w.file
    have hq2 : (loadChain today w.file).1 = true := hq
    have hrun := run_success_eq today cap (loadChain today w.file).2.1
      (loadChain today w.file).2.2 hok hlat hdate
    simp [capturePost, hb, hq2, hrun, successResponse]
  · intro s2 hall
    have h := encodeChars_of_unreserved s2.toList hall
    cases s2 with
    | mk data => exact h

/-- C10 witness: a concrete capture stores the converted bytes under the
timestamp name, and the timestamp filename is untouched by
encodeURIComponent. -/
theorem capture_saves_gallery_copy_witness :
    (captureImage (nowStamp 2025 3 1 12 0 0) [1, 2] [3, 4] (fun _ => none)).1 =
      nowStamp 2025 3 1 12 0 0 ++ ".webp" ∧
    (captureImage (nowStamp 2025 3 1 12 0 0) [1, 2] [3, 4] (fun _ => none)).2
        ("images/" ++
          (captureImage (nowStamp 2025 3 1 12 0 0) [1, 2] [3, 4] (fun _ => none)).1) =
      some [3, 4] ∧
    encodeURIComponent "2025-03-01_12-00-00.webp" = "2025-03-01_12-00-00.webp" :=
  have h := capture_saves_gallery_copy (nowStamp 2025 3 1 12 0 0) [1, 2] [3, 4]
    (fun _ => none) (by decide)
  ⟨h.1, h.2.1, h.2.2.2.2 "2025-03-01_12-00-00.webp" (by decide)⟩

end PiCam
